import Mathlib

/-!
# Verification of `src/diffusion/DiffusionEquation.cpp`

Shallow embedding of the `DiffusionEquation` class (AMReX-based implicit
viscous-diffusion solve).  Modelling conventions:

* C++ `amrex::Real` values are modelled as `ℚ` (exact arithmetic; floating-point
  rounding is not modelled — every claim under study is structural, not about
  rounding).
* The transcendental functions `sin`, `cos`, `atan2` used when filling the
  embedded-surface velocity (lines 109–116 of the source) are abstract function
  parameters, so that all statements hold for any interpretation of them; where
  a property genuinely needs trigonometry, the Pythagorean identity is taken
  as an explicit hypothesis.
* A `MultiFab` on one level is modelled as its list of valid-region cell values
  plus one list for the (single) ghost ring.  All `MultiFab::Copy` calls in the
  source copy between fabs defined on the identical BoxArray/DistributionMapping,
  so a copy of the full component range over the valid region (resp. valid
  region plus one ghost ring) is modelled as wholesale replacement of the
  corresponding list(s).
* External AMReX collaborators (`average_cellcenter_to_face`, `FillBoundary`
  halo exchange, the `MLMG` multigrid solve) are abstract function parameters
  collected in the structure `Ext`.  `FillBoundary` overwrites each ghost cell
  that is covered by valid data of some box (or a periodic image) with that
  valid data and leaves the remaining ghost cells untouched; this is modelled
  by a halo function returning `Option` values per ghost cell, `some v` for
  covered ghost cells and `none` for uncovered ones.
* Calls made by `solve` on the member linear operator `matrix` are recorded both
  in a `MatrixState` (the coefficients bound after the call) and as a trace of
  `MOp` events (which configuration entry points were invoked, in order).
  The `#if 0` block at lines 226–240 of the source (the EB-Dirichlet wiring)
  is compiled out and therefore contributes neither state changes nor events.
-/

namespace DiffusionEquation

/-- One cell value of a 3-component `MultiFab` (a velocity 3-vector). -/
structure Vec3 where
  x : ℚ
  y : ℚ
  z : ℚ
deriving DecidableEq

/-- A cell-centred 3-component `MultiFab` on one level: the valid cells and the
one-cell-wide ghost ring. -/
structure Fab3 where
  valid : List Vec3
  ghost : List Vec3
deriving DecidableEq

/-- A cell-centred 1-component `MultiFab` (density `ro` or viscosity `eta`). -/
structure Fab1 where
  valid : List ℚ
  ghost : List ℚ
deriving DecidableEq

/-- A face-centred 1-component `MultiFab`: one direction of the `b` coefficient. -/
structure FaceFab where
  valid : List ℚ
  ghost : List ℚ
deriving DecidableEq

/-- The three directional face-coefficient fabs `b[lev][0..2]`. -/
structure BCoefs where
  d0 : FaceFab
  d1 : FaceFab
  d2 : FaceFab
deriving DecidableEq

/-! ## Embedded-boundary cell data (constructor, lines 81–119)

`EBCellFlagFab::getType(bx)` classifies a tile as `covered` (every cell inside
the body), `regular` (no cut cell), or `singlevalued` (a mix).  Each cell
carries its own flag and the boundary-normal components `(n0, n1)` stored in
the `MultiCutFab` returned by `getBndryNormal`. -/

/-- Per-cell embedded-boundary classification. -/
inductive CellCls
  | regular
  | covered
  | cut
deriving DecidableEq

/-- One cell of an embedded-boundary tile: its flag and the first two
components of its boundary-normal vector. -/
structure EBCell where
  cls : CellCls
  n0 : ℚ
  n1 : ℚ
deriving DecidableEq

/-- Tile classification as returned by `EBCellFlagFab::getType` on a tile box. -/
inductive FabType
  | regular
  | covered
  | singlevalued
deriving DecidableEq

/-- `EBCellFlagFab::getType` over a tile: `covered` when every cell is covered,
`regular` when every cell is regular, otherwise mixed (single-valued). -/
def fabTypeOf (cells : List EBCell) : FabType :=
  if (∀ c ∈ cells, c.cls = CellCls.covered) then FabType.covered
  else if (∀ c ∈ cells, c.cls = CellCls.regular) then FabType.regular
  else FabType.singlevalued

/-- Constructor lines 91–118, one tile of `vel_eb[lev]`: if the tile is fully
covered or fully regular, `setVal(0.0, bx)` zeroes all three components over
the tile; otherwise the loop at lines 109–116 writes, for EVERY cell `(i,j,k)`
of the tile, `theta = atan2(-n1, -n0)` and components
`0 ↦ cyl_speed * sin theta`, `1 ↦ - cyl_speed * cos theta`.  Component 2 is
not written by the loop and keeps whatever the buffer held before. -/
def fillVelEBPatch (sin cos : ℚ → ℚ) (atan2 : ℚ → ℚ → ℚ) (speed : ℚ)
    (cells : List EBCell) (buf : List Vec3) : List Vec3 :=
  if fabTypeOf cells = FabType.covered ∨ fabTypeOf cells = FabType.regular then
    buf.map (fun _ => ⟨0, 0, 0⟩)
  else
    List.zipWith
      (fun c v =>
        let theta := atan2 (-c.n1) (-c.n0)
        ⟨speed * sin theta, -(speed * cos theta), v.z⟩)
      cells buf

/-! ## Linear operator, solver settings and external collaborators -/

/-- Bottom solver of the multigrid hierarchy.  The comment at line 267 of the
source records that the solver object's own default is BiCGStab. -/
inductive BottomSolver
  | bicgstab
  | smoother
  | hypre
deriving DecidableEq

/-- Configuration state of the member linear operator (`MLEBABecLap matrix`):
the scalars set by `setScalars` and the per-level coefficient bindings made by
`setACoeffs`, `setShearViscosity`, `setEBShearViscosity` and `setLevelBC`. -/
@[ext]
structure MatrixState where
  alpha : ℚ
  beta : ℚ
  acoeffs : Nat → Fab1
  bcoeffs : Nat → BCoefs
  ebShear : Nat → Fab1
  levelBC : Nat → Fab3

/-- Settings of one `MLMG` solver object. -/
structure MLMGState where
  bottomSolver : BottomSolver
  maxIter : ℤ
  maxFmgIter : ℤ
  cgMaxIter : ℤ
  verbose : ℤ
  cgVerbose : ℤ
  finalFillBC : Bool
deriving DecidableEq

/-- A freshly constructed `MLMG` object (`MLMG solver(matrix)` at line 243).
The numeric defaults are AMReX-internal and no claim depends on them; the
bottom solver default (BiCGStab) is the one documented at line 267. -/
def mlmgFresh : MLMGState :=
  { bottomSolver := BottomSolver.bicgstab, maxIter := 200, maxFmgIter := 0,
    cgMaxIter := 200, verbose := 0, cgVerbose := 0, finalFillBC := false }

/-- The `diffusion.*` tunables read by `readParameters` (lines 140–154). -/
structure Config where
  verbose : ℤ
  mg_verbose : ℤ
  mg_cg_verbose : ℤ
  mg_max_iter : ℤ
  mg_cg_maxiter : ℤ
  mg_max_fmg_iter : ℤ
  mg_max_coarsening_level : ℤ
  mg_rtol : ℚ
  mg_atol : ℚ
  bottom_solver_type : String
deriving DecidableEq

/-- `FillBoundary` on one list of ghost values: each ghost cell covered by valid
data of some box (or periodic image) receives that data (`some v`); uncovered
ghost cells (`none`) keep their previous content. -/
def fillGhostQ (halo : List (Option ℚ)) (prior : List ℚ) : List ℚ :=
  List.zipWith (fun o p => o.getD p) halo prior

/-- `FillBoundary` for the ghost ring of a 3-component fab. -/
def fillGhost3 (halo : List (Option Vec3)) (prior : List Vec3) : List Vec3 :=
  List.zipWith (fun o p => o.getD p) halo prior

/-- External collaborators consumed by `solve`:
`avgToFace` is `average_cellcenter_to_face` for one direction (valid faces
computed from the cell-centred field); `faceHalo`/`cellHalo` give, per level,
the `FillBoundary` image of the ghost ring as a function of the valid data
(`none` at ghost cells not covered by any valid region); `mlmg` is the external
multigrid solve, a function of the assembled operator, the solver settings, the
initial-guess/solution fabs, the right-hand-side fabs and the two tolerances. -/
structure Ext where
  avgToFace : Fab1 → Fin 3 → List ℚ
  faceHalo : Nat → List ℚ → List (Option ℚ)
  cellHalo : Nat → List Vec3 → List (Option Vec3)
  mlmg : MatrixState → MLMGState → (Nat → Fab3) → (Nat → Fab3) → ℚ → ℚ → Nat → Fab3

/-- `FillBoundary` on a whole 3-component fab (ghost ring recomputed from the
valid data, uncovered ghost cells unchanged). -/
def fbFill (ext : Ext) (lev : Nat) (f : Fab3) : Fab3 :=
  { valid := f.valid, ghost := fillGhost3 (ext.cellHalo lev f.valid) f.ghost }

/-- One configuration call made by `solve` on the member operator `matrix`,
with its payload. -/
inductive MOp
  | setScalars (alpha beta : ℚ)
  | setACoeffs (lev : Nat) (a : Fab1)
  | setShearViscosity (lev : Nat) (bc : BCoefs)
  | setEBShearViscosity (lev : Nat) (eta : Fab1)
  | setLevelBC (lev : Nat) (phi : Fab3)
  | setEBDirichlet (lev : Nat) (veb : Fab3) (eta : Fab1)
  | setEBHomogDirichlet (lev : Nat) (eta : Fab1)
deriving DecidableEq

/-- Is this operator call one of the two EB-Dirichlet entry points (the calls
inside the disabled `#if 0` block, lines 226–240)? -/
def MOp.isEBDirichletB : MOp → Bool
  | .setEBDirichlet _ _ _ => true
  | .setEBHomogDirichlet _ _ => true
  | _ => false

/-- Is this operator call `setScalars`? -/
def MOp.isSetScalarsB : MOp → Bool
  | .setScalars _ _ => true
  | _ => false

/-! ## The `DiffusionEquation` object state -/

/-- Member state of a `DiffusionEquation` object (the members touched by the
functions under study): the configured cylinder speed, the per-level working
fabs `b`, `phi`, `rhs`, `vel_eb`, and the member linear operator state. -/
@[ext]
structure State where
  cyl_speed : ℚ
  b : Nat → BCoefs
  phi : Nat → Fab3
  rhs : Nat → Fab3
  vel_eb : Nat → Fab3
  matrix : MatrixState

/-! ## `solve` (lines 168–259), decomposed as in the source -/

/-- Lines 193–195 for one level: `average_cellcenter_to_face` computes the
three directional face fabs from the cell-centred viscosity, then each is
`FillBoundary`-exchanged (ghost faces recomputed from the new valid data,
uncovered ghost faces keeping the prior content of `b[lev]`). -/
def computeB (ext : Ext) (lev : Nat) (eta : Fab1) (prior : BCoefs) : BCoefs :=
  let mk : Fin 3 → FaceFab → FaceFab := fun dir pg =>
    let v := ext.avgToFace eta dir
    { valid := v, ghost := fillGhostQ (ext.faceHalo lev v) pg.ghost }
  { d0 := mk 0 prior.d0, d1 := mk 1 prior.d1, d2 := mk 2 prior.d2 }

/-- The coefficient-refresh step, lines 187–201: `setScalars(1.0, dt)` once,
then for every level `0..finest` recompute `b[lev]` from `eta` and bind
`ro` (`setACoeffs`), `b` (`setShearViscosity`) and `eta`
(`setEBShearViscosity`).  Returns the updated object state and the trace of
operator calls in source order. -/
def refreshCoeffs (ext : Ext) (finest : Nat) (ro eta : Nat → Fab1) (dt : ℚ)
    (s : State) : State × List MOp :=
  let b' : Nat → BCoefs := fun lev =>
    if lev ≤ finest then computeB ext lev (eta lev) (s.b lev) else s.b lev
  let m : MatrixState :=
    { s.matrix with
      alpha := 1,
      beta := dt,
      acoeffs := fun lev => if lev ≤ finest then ro lev else s.matrix.acoeffs lev,
      bcoeffs := fun lev => if lev ≤ finest then b' lev else s.matrix.bcoeffs lev,
      ebShear := fun lev => if lev ≤ finest then eta lev else s.matrix.ebShear lev }
  let tr : List MOp :=
    MOp.setScalars 1 dt ::
      (((List.range (finest + 1)).map (fun lev =>
        [MOp.setACoeffs lev (ro lev), MOp.setShearViscosity lev (b' lev),
         MOp.setEBShearViscosity lev (eta lev)])).flatten)
  ({ s with b := b', matrix := m }, tr)

/-- `MultiFab::Multiply(rhs, ro, 0, i, 1, nGrow=0)` at line 219: multiply
component `i` of each valid cell by the density of that cell. -/
def mulComp (i : Nat) (dst : List Vec3) (ro : List ℚ) : List Vec3 :=
  List.zipWith
    (fun v r =>
      if i = 0 then { v with x := v.x * r }
      else if i = 1 then { v with y := v.y * r }
      else if i = 2 then { v with z := v.z * r }
      else v)
    dst ro

/-- Lines 210–219 for one level: copy the three velocity components into the
RHS valid region (`MultiFab::Copy(rhs, vel, 0, 0, 3, 0)`, identical layouts),
then multiply each of the three components by the density.  `rhs` owns no
ghost cells; its (empty) ghost list is untouched. -/
def buildRhs (vel : Fab3) (ro : Fab1) (rhsPrev : Fab3) : Fab3 :=
  let r0 := vel.valid
  let r1 := mulComp 0 r0 ro.valid
  let r2 := mulComp 1 r1 ro.valid
  let r3 := mulComp 2 r2 ro.valid
  { valid := r3, ghost := rhsPrev.ghost }

/-- Lines 222–223 for one level: copy velocity (3 components, 1 ghost ring)
into `phi`, then `FillBoundary` it (ghosts recomputed from the valid data,
uncovered ghosts keeping the just-copied velocity ghosts). -/
def prepPhi (ext : Ext) (lev : Nat) (vel : Fab3) : Fab3 :=
  { valid := vel.valid, ghost := fillGhost3 (ext.cellHalo lev vel.valid) vel.ghost }

/-- The per-level solution fabs returned by the external `MLMG::solve` call at
line 249: the operator carries the refreshed coefficients and the per-level
`setLevelBC` bindings; the solver settings are those of `setSolverSettings`
plus the `setFinalFillBC(true)` at line 247. -/
def setSolverSettings (cfg : Config) (solver : MLMGState) : MLMGState :=
  let s1 :=
    if cfg.bottom_solver_type = "smoother" then
      { solver with bottomSolver := BottomSolver.smoother }
    else if cfg.bottom_solver_type = "hypre" then
      { solver with bottomSolver := BottomSolver.hypre }
    else
      solver
  { s1 with
    maxIter := cfg.mg_max_iter,
    maxFmgIter := cfg.mg_max_fmg_iter,
    cgMaxIter := cfg.mg_cg_maxiter,
    verbose := cfg.mg_verbose,
    cgVerbose := cfg.mg_cg_verbose,
    finalFillBC := true }

/-- The right-hand-side fabs handed to the external solver, per level
(levels beyond `finest` keep the prior member content). -/
def solveRhs (vel : Nat → Fab3) (ro : Nat → Fab1) (finest : Nat) (s : State) :
    Nat → Fab3 :=
  fun lev => if lev ≤ finest then buildRhs (vel lev) (ro lev) (s.rhs lev) else s.rhs lev

/-- The initial-guess / boundary-data fabs handed to the external solver. -/
def solvePhi (ext : Ext) (vel : Nat → Fab3) (finest : Nat) (s : State) :
    Nat → Fab3 :=
  fun lev => if lev ≤ finest then prepPhi ext lev (vel lev) else s.phi lev

/-- The operator state at the moment `MLMG::solve` runs: refreshed coefficients
plus the per-level `setLevelBC` bindings of line 224. -/
def solveMatrix (ext : Ext) (finest : Nat) (ro eta : Nat → Fab1) (dt : ℚ)
    (vel : Nat → Fab3) (s : State) : MatrixState :=
  let m1 := (refreshCoeffs ext finest ro eta dt s).1.matrix
  { m1 with
    levelBC := fun lev =>
      if lev ≤ finest then solvePhi ext vel finest s lev else m1.levelBC lev }

/-- The per-level solution returned by the external multigrid solve
(line 249). -/
def solverSol (ext : Ext) (cfg : Config) (s : State) (finest : Nat)
    (vel : Nat → Fab3) (ro eta : Nat → Fab1) (dt : ℚ) : Nat → Fab3 :=
  let solver := { setSolverSettings cfg mlmgFresh with finalFillBC := true }
  ext.mlmg (solveMatrix ext finest ro eta dt vel s) solver
    (solvePhi ext vel finest s) (solveRhs vel ro finest s) cfg.mg_rtol cfg.mg_atol

/-- Result of one `solve` call: the object state on return, the caller's
velocity fabs on return, and the trace of operator-configuration calls. -/
structure SolveResult where
  state : State
  velOut : Nat → Fab3
  trace : List MOp

/-- `DiffusionEquation::solve` (lines 168–259).  Refresh the operator
coefficients; per level build the RHS and the boundary/initial-guess fab and
bind it with `setLevelBC`; run the external multigrid solve; then per level
`FillBoundary` the solution and copy it (3 components, including the ghost
ring) back into the caller's velocity fab.  The `#if 0` block at lines
226–240 is compiled out: it contributes no operator call and is the only
place where `vel_eb` or `cyl_speed` appears in the body of `solve`. -/
def solve (ext : Ext) (cfg : Config) (s : State) (finest : Nat)
    (vel : Nat → Fab3) (ro eta : Nat → Fab1) (dt : ℚ) : SolveResult :=
  let rc := refreshCoeffs ext finest ro eta dt s
  let s1 := rc.1
  let rhs' := solveRhs vel ro finest s
  let phi' := solvePhi ext vel finest s
  let trBC : List MOp :=
    (List.range (finest + 1)).map (fun lev => MOp.setLevelBC lev (phi' lev))
  let sol := solverSol ext cfg s finest vel ro eta dt
  let phiOut : Nat → Fab3 := fun lev =>
    if lev ≤ finest then fbFill ext lev (sol lev) else phi' lev
  let vel' : Nat → Fab3 := fun lev =>
    if lev ≤ finest then phiOut lev else vel lev
  { state :=
      { s1 with
        matrix := solveMatrix ext finest ro eta dt vel s,
        rhs := rhs',
        phi := phiOut },
    velOut := vel',
    trace := rc.2 ++ trBC }

/-! ## `updateInternals` (lines 156–163) -/

/-- An observable effect of `updateInternals`. -/
inductive Effect
  | print (msg : String)
  | abort
deriving DecidableEq

/-- Is this effect a diagnostic print? -/
def Effect.isPrint : Effect → Bool
  | .print _ => true
  | .abort => false

/-- `DiffusionEquation::updateInternals` (lines 156–163): prints the
diagnostic and calls `amrex::Abort()`.  It writes no member of the object and
never returns normally, which is modelled by the returned state being `none`
alongside the list of effects in order. -/
def updateInternals (s : State)
    (amrcore_in : Unit) (ebfactory_in : Unit) : List Effect × Option State :=
  ([Effect.print "ERROR: DiffusionEquation::updateInternals() not yet implemented",
    Effect.abort], none)

/-! ## Concrete instances used to evaluate the development on closed inputs -/

/-- A trig interpretation agreeing with the real functions at the angles the
demonstration cells produce: `atan2(-0, -1) = π` (resp. `atan2(-0, -0) = -π`
in C), where `sin = 0` and `cos = -1`. -/
def sinDemo : ℚ → ℚ := fun _ => 0

/-- See `sinDemo`. -/
def cosDemo : ℚ → ℚ := fun _ => -1

/-- See `sinDemo`; the angle value itself is irrelevant to the constant
interpretations of `sinDemo`/`cosDemo`. -/
def atan2Demo : ℚ → ℚ → ℚ := fun _ _ => 0

/-- A mixed tile: one cut cell with boundary normal `(1, 0)` and one fully
regular (fluid) cell. -/
def cellsMixed : List EBCell := [⟨CellCls.cut, 1, 0⟩, ⟨CellCls.regular, 0, 0⟩]

/-- Prior buffer content of the tile (third components 7 and 5 model the
uninitialised allocation contents of `vel_eb`). -/
def bufMixed : List Vec3 := [⟨0, 0, 7⟩, ⟨0, 0, 5⟩]

/-- Trivial external collaborators for closed evaluations. -/
def extDemo : Ext :=
  { avgToFace := fun f _ => f.valid,
    faceHalo := fun _ v => v.map some,
    cellHalo := fun _ v => v.map some,
    mlmg := fun _ _ phi _ _ _ => phi }

/-- A concrete configuration with an unrecognised bottom-solver name. -/
def cfgDemo : Config :=
  { verbose := 0, mg_verbose := 0, mg_cg_verbose := 0, mg_max_iter := 100,
    mg_cg_maxiter := 100, mg_max_fmg_iter := 0, mg_max_coarsening_level := 30,
    mg_rtol := 1 / 1000000, mg_atol := 1 / 100000000000000,
    bottom_solver_type := "bicgcg" }

/-- A one-cell 3-component fab. -/
def fab3A : Fab3 := { valid := [⟨1, 2, 3⟩], ghost := [⟨4, 5, 6⟩] }

/-- A one-cell 1-component fab. -/
def fab1A : Fab1 := { valid := [2], ghost := [7] }

/-- A one-face fab. -/
def faceA : FaceFab := { valid := [1], ghost := [2] }

/-- Concrete face coefficients. -/
def bA : BCoefs := { d0 := faceA, d1 := faceA, d2 := faceA }

/-- A concrete operator state. -/
def matA : MatrixState :=
  { alpha := 0, beta := 0, acoeffs := fun _ => fab1A, bcoeffs := fun _ => bA,
    ebShear := fun _ => fab1A, levelBC := fun _ => fab3A }

/-- A concrete object state. -/
def stateA : State :=
  { cyl_speed := 1, b := fun _ => bA, phi := fun _ => fab3A,
    rhs := fun _ => { valid := [⟨0, 0, 0⟩], ghost := [] },
    vel_eb := fun _ => fab3A, matrix := matA }

/-- Concrete per-level velocity input. -/
def velA : Nat → Fab3 := fun _ => fab3A

/-- Concrete per-level density input. -/
def roA : Nat → Fab1 := fun _ => fab1A

/-- Concrete per-level viscosity input. -/
def etaA : Nat → Fab1 := fun _ => fab1A

/-! ## Helper lemmas -/

theorem zipWith_getElem?_some {α β γ : Type} (f : α → β → γ) {l1 : List α}
    {l2 : List β} {j : Nat} {a : α} {b : β} (h1 : l1[j]? = some a)
    (h2 : l2[j]? = some b) : (List.zipWith f l1 l2)[j]? = some (f a b) := by
  simp [List.getElem?_zipWith, h1, h2]

theorem filter_map_nil {α β : Type} (p : β → Bool) (f : α → β)
    (hf : ∀ a, p (f a) = false) : ∀ l : List α, (l.map f).filter p = []
  | [] => rfl
  | a :: l => by
      simp only [List.map_cons, List.filter_cons, hf a, Bool.false_eq_true,
        if_false, filter_map_nil p f hf l]

theorem filter_flatten_nil {α : Type} (p : α → Bool) :
    ∀ L : List (List α), (∀ l ∈ L, l.filter p = []) → L.flatten.filter p = []
  | [], _ => rfl
  | l :: L, h => by
      simp only [List.flatten_cons, List.filter_append,
        h l (List.mem_cons_self l L),
        filter_flatten_nil p L (fun x hx => h x (List.mem_cons_of_mem l hx)),
        List.nil_append]

theorem getD_zipWith_idem {α : Type} :
    ∀ (h : List (Option α)) (g : List α),
      List.zipWith (fun o p => o.getD p) h (List.zipWith (fun o p => o.getD p) h g)
        = List.zipWith (fun o p => o.getD p) h g
  | [], _ => rfl
  | _ :: _, [] => rfl
  | o :: t, p :: g => by
      simp only [List.zipWith_cons_cons, getD_zipWith_idem t g]
      cases o <;> rfl

theorem fillGhostQ_idem (h : List (Option ℚ)) (g : List ℚ) :
    fillGhostQ h (fillGhostQ h g) = fillGhostQ h g :=
  getD_zipWith_idem h g

theorem fillGhost3_idem (h : List (Option Vec3)) (g : List Vec3) :
    fillGhost3 h (fillGhost3 h g) = fillGhost3 h g :=
  getD_zipWith_idem h g

theorem computeB_stable (ext : Ext) (lev : Nat) (eta : Fab1) (prior : BCoefs) :
    computeB ext lev eta (computeB ext lev eta prior) = computeB ext lev eta prior := by
  simp [computeB, fillGhostQ_idem]

/-! ## Claim theorems -/

/-- C7: every invocation of `updateInternals` prints one diagnostic and then
terminates the process (`amrex::Abort`); it never returns normally (no
returned object state) and mutates nothing before aborting. -/
theorem c7_updateInternals_always_aborts (s : State) (a e : Unit) :
    (updateInternals s a e).2 = none
    ∧ (updateInternals s a e).1.getLast? = some Effect.abort
    ∧ (updateInternals s a e).1.dropLast.all Effect.isPrint = true
    ∧ (updateInternals s a e).1.dropLast.length = 1 :=
  ⟨rfl, rfl, rfl, rfl⟩

/-- C8: `setSolverSettings` selects the smoother bottom solver for the string
"smoother" and the hypre bottom solver for "hypre"; any other string silently
keeps the solver's current (default) bottom solver; and in all cases the
iteration caps, verbosity settings and the final boundary-halo fill request
are applied. -/
theorem c8_setSolverSettings_selection (cfg : Config) (solver : MLMGState) :
    (cfg.bottom_solver_type = "smoother" →
        (setSolverSettings cfg solver).bottomSolver = BottomSolver.smoother)
    ∧ (cfg.bottom_solver_type = "hypre" →
        (setSolverSettings cfg solver).bottomSolver = BottomSolver.hypre)
    ∧ (cfg.bottom_solver_type ≠ "smoother" → cfg.bottom_solver_type ≠ "hypre" →
        (setSolverSettings cfg solver).bottomSolver = solver.bottomSolver)
    ∧ (setSolverSettings cfg solver).maxIter = cfg.mg_max_iter
    ∧ (setSolverSettings cfg solver).maxFmgIter = cfg.mg_max_fmg_iter
    ∧ (setSolverSettings cfg solver).cgMaxIter = cfg.mg_cg_maxiter
    ∧ (setSolverSettings cfg solver).verbose = cfg.mg_verbose
    ∧ (setSolverSettings cfg solver).cgVerbose = cfg.mg_cg_verbose
    ∧ (setSolverSettings cfg solver).finalFillBC = true := by
  unfold setSolverSettings
  by_cases h1 : cfg.bottom_solver_type = "smoother" <;>
    by_cases h2 : cfg.bottom_solver_type = "hypre" <;>
      simp [h1, h2]

/-- C8 witness: with the unrecognised name "bicgcg" the fresh solver's default
bottom solver is kept. -/
theorem c8_witness :
    (setSolverSettings cfgDemo mlmgFresh).bottomSolver = mlmgFresh.bottomSolver :=
  (c8_setSolverSettings_selection cfgDemo mlmgFresh).2.2.1 (by decide) (by decide)

/-- C9: the per-timestep coefficient-refresh step (lines 187–201) is
idempotent: running it twice with identical density, viscosity and `dt`
inputs leaves the object state — the `b` buffers and every operator
coefficient — identical to running it once. -/
theorem c9_refreshCoeffs_idempotent (ext : Ext) (finest : Nat)
    (ro eta : Nat → Fab1) (dt : ℚ) (s : State) :
    (refreshCoeffs ext finest ro eta dt (refreshCoeffs ext finest ro eta dt s).1).1
      = (refreshCoeffs ext finest ro eta dt s).1 := by
  dsimp only [refreshCoeffs]
  refine State.ext rfl ?_ rfl rfl rfl ?_
  · funext lev
    by_cases h : lev ≤ finest <;> simp [h, computeB_stable]
  · refine MatrixState.ext rfl rfl ?_ ?_ ?_ rfl
    · funext lev
      by_cases h : lev ≤ finest <;> simp [h]
    · funext lev
      by_cases h : lev ≤ finest <;> simp [h, computeB_stable]
    · funext lev
      by_cases h : lev ≤ finest <;> simp [h]

/-- C2 counterexample: in a patch that is neither fully fluid nor fully solid,
a cell fully inside the fluid (flag `regular`) does NOT store the zero
3-vector after the construction-time fill: with rotation speed 1 it stores
`(0, 1, 5)`.  (The constant trig interpretation used here agrees with the
real functions at the produced angle: `cos` of the angle `atan2` returns for
the stored `(0,0)` normal is `-1` and `sin` of it is `0`.) -/
theorem c2_counterexample :
    fabTypeOf cellsMixed = FabType.singlevalued
    ∧ cellsMixed[1]? = some ⟨CellCls.regular, 0, 0⟩
    ∧ (fillVelEBPatch sinDemo cosDemo atan2Demo 1 cellsMixed bufMixed)[1]?
        = some ⟨0, 1, 5⟩
    ∧ (⟨0, 1, 5⟩ : Vec3) ≠ ⟨0, 0, 0⟩ := by
  have hne : ¬(fabTypeOf cellsMixed = FabType.covered
      ∨ fabTypeOf cellsMixed = FabType.regular) := by
    rintro (h | h) <;> exact FabType.noConfusion h
  refine ⟨rfl, rfl, ?_, ?_⟩
  · unfold fillVelEBPatch
    rw [if_neg hne]
    norm_num [cellsMixed, bufMixed, sinDemo, cosDemo, atan2Demo]
  · norm_num [Vec3.mk.injEq]

/-- C2 amended: the construction-time fill zeroes per PATCH, not per cell:
every cell of a fully-fluid or fully-solid patch stores the zero 3-vector,
while in a patch containing any cut cell EVERY cell — whatever its own
classification — receives the rotation velocity in components 0 and 1, of
planar magnitude `|speed|` (for trig functions satisfying the Pythagorean
identity), with component 2 keeping its prior content. -/
theorem c2_patchwise_fill (sin cos : ℚ → ℚ) (atan2 : ℚ → ℚ → ℚ) (speed : ℚ)
    (cells : List EBCell) (buf : List Vec3)
    (hpy : ∀ t, sin t * sin t + cos t * cos t = 1) :
    ((fabTypeOf cells = FabType.regular ∨ fabTypeOf cells = FabType.covered) →
        ∀ v ∈ fillVelEBPatch sin cos atan2 speed cells buf, v = ⟨0, 0, 0⟩)
    ∧ (fabTypeOf cells = FabType.singlevalued →
        ∀ (j : Nat) (c : EBCell) (v : Vec3), cells[j]? = some c → buf[j]? = some v →
          ∃ w : Vec3, (fillVelEBPatch sin cos atan2 speed cells buf)[j]? = some w
            ∧ w.x * w.x + w.y * w.y = speed * speed
            ∧ w.z = v.z) := by
  constructor
  · intro hty v hv
    unfold fillVelEBPatch at hv
    rw [if_pos (Or.symm hty)] at hv
    simp only [List.mem_map] at hv
    obtain ⟨a, _, h⟩ := hv
    exact h.symm
  · intro hty j c v hc hv
    have hne : ¬(fabTypeOf cells = FabType.covered ∨ fabTypeOf cells = FabType.regular) := by
      rw [hty]
      rintro (h | h) <;> exact FabType.noConfusion h
    unfold fillVelEBPatch
    rw [if_neg hne]
    refine ⟨_, zipWith_getElem?_some _ hc hv, ?_, rfl⟩
    dsimp only
    linear_combination (speed * speed) * hpy (atan2 (-c.n1) (-c.n0))

/-- C2 amended, witness: at the fully-fluid cell of the mixed demonstration
patch the stored vector has planar magnitude 1 and keeps the prior third
component 5. -/
theorem c2_witness :
    ∃ w : Vec3, (fillVelEBPatch sinDemo cosDemo atan2Demo 1 cellsMixed bufMixed)[1]?
        = some w
      ∧ w.x * w.x + w.y * w.y = 1 * 1
      ∧ w.z = (⟨0, 0, 5⟩ : Vec3).z :=
  (c2_patchwise_fill sinDemo cosDemo atan2Demo 1 cellsMixed bufMixed
      (fun t => by norm_num [sinDemo, cosDemo])).2
    rfl 1 ⟨CellCls.regular, 0, 0⟩ ⟨0, 0, 5⟩ rfl rfl

/-- C3 counterexample: in the cut-cell branch the third (z) component is NOT
set to 0: at the cut cell of the mixed demonstration patch, whose buffer held
7 before the fill, it still holds 7 afterwards. -/
theorem c3_counterexample :
    fabTypeOf cellsMixed = FabType.singlevalued
    ∧ cellsMixed[0]? = some ⟨CellCls.cut, 1, 0⟩
    ∧ (fillVelEBPatch sinDemo cosDemo atan2Demo 1 cellsMixed bufMixed)[0]?
        = some ⟨0, 1, 7⟩
    ∧ ((7 : ℚ) ≠ 0) := by
  have hne : ¬(fabTypeOf cellsMixed = FabType.covered
      ∨ fabTypeOf cellsMixed = FabType.regular) := by
    rintro (h | h) <;> exact FabType.noConfusion h
  refine ⟨rfl, rfl, ?_, by norm_num⟩
  unfold fillVelEBPatch
  rw [if_neg hne]
  norm_num [cellsMixed, bufMixed, sinDemo, cosDemo, atan2Demo]

/-- C3 amended: in the cut-cell branch every cell of the patch stores
`(speed * sin theta, -(speed * cos theta))` in components 0 and 1, with
`theta = atan2(-ny, -nx)` from that cell's boundary normal, while the third
(z) component is NOT written and retains the buffer's previous
(uninitialised) content. -/
theorem c3_cut_branch_formula (sin cos : ℚ → ℚ) (atan2 : ℚ → ℚ → ℚ) (speed : ℚ)
    (cells : List EBCell) (buf : List Vec3)
    (h : fabTypeOf cells = FabType.singlevalued)
    (j : Nat) (c : EBCell) (v : Vec3) (hc : cells[j]? = some c)
    (hv : buf[j]? = some v) :
    (fillVelEBPatch sin cos atan2 speed cells buf)[j]?
      = some ⟨speed * sin (atan2 (-c.n1) (-c.n0)),
              -(speed * cos (atan2 (-c.n1) (-c.n0))), v.z⟩ := by
  have hne : ¬(fabTypeOf cells = FabType.covered ∨ fabTypeOf cells = FabType.regular) := by
    rw [h]
    rintro (h1 | h1) <;> exact FabType.noConfusion h1
  unfold fillVelEBPatch
  rw [if_neg hne]
  exact zipWith_getElem?_some _ hc hv

/-- C3 amended, witness: with rotation speed 2 the cut cell of the mixed
demonstration patch stores `(0, 2, 7)` — the prior third component 7
survives the fill. -/
theorem c3_witness :
    (fillVelEBPatch sinDemo cosDemo atan2Demo 2 cellsMixed bufMixed)[0]?
      = some ⟨0, 2, 7⟩ :=
  (c3_cut_branch_formula sinDemo cosDemo atan2Demo 2 cellsMixed bufMixed
      rfl 0 ⟨CellCls.cut, 1, 0⟩ ⟨0, 0, 7⟩ rfl rfl).trans
    (by norm_num [sinDemo, cosDemo, atan2Demo])

/-- C1: no call of `solve` — whatever the configured rotation speed — invokes
an EB-Dirichlet operator configuration (`setEBDirichlet` or
`setEBHomogDirichlet`), and the member `vel_eb` computed at construction is
never read by `solve`: changing `vel_eb` (and `cyl_speed`) in the object state
changes neither the returned velocity, nor the operator-call trace, nor any
other component of the returned object state, so the embedded surface acts as
a flux (Neumann-like) boundary. -/
theorem c1_solve_never_applies_eb_dirichlet (ext : Ext) (cfg : Config)
    (s : State) (finest : Nat) (vel : Nat → Fab3) (ro eta : Nat → Fab1)
    (dt : ℚ) (veb : Nat → Fab3) (speed : ℚ) :
    (solve ext cfg s finest vel ro eta dt).trace.filter MOp.isEBDirichletB = []
    ∧ (solve ext cfg { s with vel_eb := veb, cyl_speed := speed } finest vel ro eta dt).velOut
        = (solve ext cfg s finest vel ro eta dt).velOut
    ∧ (solve ext cfg { s with vel_eb := veb, cyl_speed := speed } finest vel ro eta dt).trace
        = (solve ext cfg s finest vel ro eta dt).trace
    ∧ (solve ext cfg { s with vel_eb := veb, cyl_speed := speed } finest vel ro eta dt).state.matrix
        = (solve ext cfg s finest vel ro eta dt).state.matrix
    ∧ (solve ext cfg { s with vel_eb := veb, cyl_speed := speed } finest vel ro eta dt).state.rhs
        = (solve ext cfg s finest vel ro eta dt).state.rhs
    ∧ (solve ext cfg { s with vel_eb := veb, cyl_speed := speed } finest vel ro eta dt).state.phi
        = (solve ext cfg s finest vel ro eta dt).state.phi
    ∧ (solve ext cfg { s with vel_eb := veb, cyl_speed := speed } finest vel ro eta dt).state.b
        = (solve ext cfg s finest vel ro eta dt).state.b := by
  refine ⟨?_, rfl, rfl, rfl, rfl, rfl, rfl⟩
  rw [List.filter_eq_nil_iff]
  intro op hop
  dsimp only [solve, refreshCoeffs] at hop
  simp only [List.cons_append, List.mem_cons, List.mem_append, List.mem_flatten,
    List.mem_map] at hop
  rcases hop with rfl | ⟨l, ⟨lev, _, rfl⟩, hl⟩ | ⟨lev, _, rfl⟩
  · simp [MOp.isEBDirichletB]
  · simp only [List.mem_cons, List.mem_singleton, List.not_mem_nil] at hl
    rcases hl with rfl | rfl | rfl | hfalse
    · simp [MOp.isEBDirichletB]
    · simp [MOp.isEBDirichletB]
    · simp [MOp.isEBDirichletB]
    · exact absurd hfalse (by simp)
  · simp [MOp.isEBDirichletB]

/-- C4: every call of `solve` sets the operator scalars exactly once —
globally, first, to `alpha = 1`, `beta = dt` — and for every level up to
`finest` binds the level's density as the "a" coefficient, the face-averaged
viscosity as the "b" coefficient and the cell-centred viscosity as the
embedded-boundary flux coefficient. -/
theorem c4_solve_operator_configuration (ext : Ext) (cfg : Config) (s : State)
    (finest : Nat) (vel : Nat → Fab3) (ro eta : Nat → Fab1) (dt : ℚ) :
    ((solve ext cfg s finest vel ro eta dt).trace.filter MOp.isSetScalarsB
        = [MOp.setScalars 1 dt]
      ∧ (solve ext cfg s finest vel ro eta dt).trace.head?
          = some (MOp.setScalars 1 dt))
    ∧ (∀ lev, lev ≤ finest →
        (solve ext cfg s finest vel ro eta dt).state.matrix.acoeffs lev = ro lev
        ∧ (solve ext cfg s finest vel ro eta dt).state.matrix.bcoeffs lev
            = computeB ext lev (eta lev) (s.b lev)
        ∧ (solve ext cfg s finest vel ro eta dt).state.matrix.ebShear lev
            = eta lev) := by
  refine ⟨⟨?_, rfl⟩, ?_⟩
  · dsimp only [solve, refreshCoeffs]
    rw [List.cons_append, List.filter_cons_of_pos rfl]
    have h1 : ((List.range (finest + 1)).map (fun lev =>
        [MOp.setACoeffs lev (ro lev),
         MOp.setShearViscosity lev
           (if lev ≤ finest then computeB ext lev (eta lev) (s.b lev) else s.b lev),
         MOp.setEBShearViscosity lev (eta lev)])).flatten.filter
          MOp.isSetScalarsB = [] := by
      refine filter_flatten_nil _ _ ?_
      intro l hl
      obtain ⟨lev, _, rfl⟩ := List.mem_map.mp hl
      rfl
    have h2 : ((List.range (finest + 1)).map (fun lev =>
        MOp.setLevelBC lev (solvePhi ext vel finest s lev))).filter
          MOp.isSetScalarsB = [] :=
      filter_map_nil _ _ (fun _ => rfl) _
    rw [List.filter_append, h1, h2]
    rfl
  · intro lev hlev
    refine ⟨?_, ?_, ?_⟩ <;> simp [solve, solveMatrix, refreshCoeffs, hlev]

/-- C4 witness: a concrete one-level call binds the density, face-averaged
viscosity and EB viscosity of level 0. -/
theorem c4_witness :
    (solve extDemo cfgDemo stateA 0 velA roA etaA 1).state.matrix.acoeffs 0 = roA 0
    ∧ (solve extDemo cfgDemo stateA 0 velA roA etaA 1).state.matrix.bcoeffs 0
        = computeB extDemo 0 (etaA 0) (stateA.b 0)
    ∧ (solve extDemo cfgDemo stateA 0 velA roA etaA 1).state.matrix.ebShear 0
        = etaA 0 :=
  (c4_solve_operator_configuration extDemo cfgDemo stateA 0 velA roA etaA 1).2
    0 (Nat.le_refl 0)

theorem buildRhs_valid_getElem (vel : Fab3) (ro : Fab1) (prev : Fab3) (j : Nat)
    (hj : j < vel.valid.length) (hr : j < ro.valid.length) :
    (buildRhs vel ro prev).valid[j]?
      = some ⟨vel.valid[j].x * ro.valid[j], vel.valid[j].y * ro.valid[j],
              vel.valid[j].z * ro.valid[j]⟩ := by
  have h0 : vel.valid[j]? = some vel.valid[j] := List.getElem?_eq_getElem hj
  have hro : ro.valid[j]? = some ro.valid[j] := List.getElem?_eq_getElem hr
  exact (zipWith_getElem?_some _
    (zipWith_getElem?_some _ (zipWith_getElem?_some _ h0 hro) hro) hro).trans rfl

/-- C5: in every call of `solve`, for every level up to `finest`, the RHS
buffer handed to the external solver holds, in each valid cell and each of the
3 components, the density of the cell times that component of the input
velocity. -/
theorem c5_rhs_density_times_velocity (ext : Ext) (cfg : Config) (s : State)
    (finest : Nat) (vel : Nat → Fab3) (ro eta : Nat → Fab1) (dt : ℚ)
    (lev j : Nat) (hlev : lev ≤ finest)
    (hj : j < (vel lev).valid.length) (hr : j < (ro lev).valid.length) :
    ((solve ext cfg s finest vel ro eta dt).state.rhs lev).valid[j]?
      = some ⟨(ro lev).valid[j] * ((vel lev).valid[j]).x,
              (ro lev).valid[j] * ((vel lev).valid[j]).y,
              (ro lev).valid[j] * ((vel lev).valid[j]).z⟩ := by
  have hst : (solve ext cfg s finest vel ro eta dt).state.rhs lev
      = buildRhs (vel lev) (ro lev) (s.rhs lev) := by
    simp [solve, solveRhs, hlev]
  rw [hst, buildRhs_valid_getElem _ _ _ j hj hr]
  simp [Vec3.mk.injEq, mul_comm]

/-- C5 witness: with density 2 and velocity `(1, 2, 3)` in the single cell of
a one-level hierarchy, the RHS cell holds `(2, 4, 6)`. -/
theorem c5_witness :
    ((solve extDemo cfgDemo stateA 0 velA roA etaA 1).state.rhs 0).valid[0]?
      = some ⟨2, 4, 6⟩ := by
  have h := c5_rhs_density_times_velocity extDemo cfgDemo stateA 0 velA roA etaA
    1 0 0 (Nat.le_refl 0) (by simp [velA, fab3A]) (by simp [roA, fab1A])
  exact h.trans (by norm_num [roA, velA, fab1A, fab3A])

/-- C6: when `solve` returns, the caller's velocity fabs of every level up to
`finest` have been overwritten with the (halo-exchanged) solver solution, and
the velocity fabs of every level beyond `finest` are unchanged. -/
theorem c6_solve_frame (ext : Ext) (cfg : Config) (s : State) (finest : Nat)
    (vel : Nat → Fab3) (ro eta : Nat → Fab1) (dt : ℚ) :
    (∀ lev, lev ≤ finest →
        (solve ext cfg s finest vel ro eta dt).velOut lev
          = fbFill ext lev (solverSol ext cfg s finest vel ro eta dt lev))
    ∧ (∀ lev, finest < lev →
        (solve ext cfg s finest vel ro eta dt).velOut lev = vel lev) := by
  constructor
  · intro lev h
    simp [solve, h]
  · intro lev h
    simp [solve, Nat.not_le.mpr h]

/-- C6 witness: with `finest = 0`, level 1 is untouched and level 0 receives
the post-exchange solver solution. -/
theorem c6_witness :
    (solve extDemo cfgDemo stateA 0 velA roA etaA 1).velOut 1 = velA 1
    ∧ (solve extDemo cfgDemo stateA 0 velA roA etaA 1).velOut 0
        = fbFill extDemo 0 (solverSol extDemo cfgDemo stateA 0 velA roA etaA 1 0) :=
  ⟨(c6_solve_frame extDemo cfgDemo stateA 0 velA roA etaA 1).2 1 Nat.zero_lt_one,
   (c6_solve_frame extDemo cfgDemo stateA 0 velA roA etaA 1).1 0 (Nat.le_refl 0)⟩

/-- C10: after the external solve, for every level up to `finest` the solution
is halo-exchanged and then copied — valid cells AND ghost ring — into the
caller's velocity fab, which therefore coincides with the object's
post-exchange solution buffer `phi`. -/
theorem c10_solution_halo_copy (ext : Ext) (cfg : Config) (s : State)
    (finest : Nat) (vel : Nat → Fab3) (ro eta : Nat → Fab1) (dt : ℚ)
    (lev : Nat) (h : lev ≤ finest) :
    ((solve ext cfg s finest vel ro eta dt).velOut lev).valid
        = (solverSol ext cfg s finest vel ro eta dt lev).valid
    ∧ ((solve ext cfg s finest vel ro eta dt).velOut lev).ghost
        = fillGhost3
            (ext.cellHalo lev (solverSol ext cfg s finest vel ro eta dt lev).valid)
            (solverSol ext cfg s finest vel ro eta dt lev).ghost
    ∧ (solve ext cfg s finest vel ro eta dt).velOut lev
        = (solve ext cfg s finest vel ro eta dt).state.phi lev := by
  refine ⟨?_, ?_, ?_⟩ <;> simp [solve, fbFill, h]

/-- C10 witness: at level 0 of a concrete call the returned velocity fab and
the post-exchange solution buffer agree, ghost ring included. -/
theorem c10_witness :
    (solve extDemo cfgDemo stateA 0 velA roA etaA 1).velOut 0
      = (solve extDemo cfgDemo stateA 0 velA roA etaA 1).state.phi 0 :=
  (c10_solution_halo_copy extDemo cfgDemo stateA 0 velA roA etaA 1 0
    (Nat.le_refl 0)).2.2

end DiffusionEquation
